import Mathlib

/-!
Verification development for the gold-lending backend: a shallow embedding of
the loan lifecycle core (EMI calculator, payment ledger, overdue/penalty
engine, batch sweep) together with theorems settling the specified properties.

Conventions of the embedding:
* JavaScript `Date` values are UTC timestamps in integer milliseconds (`Int`);
  `setMonth`/`setDate`/`getMonth`/`getDate` follow the ECMAScript `MakeDay`
  semantics (month index normalised into years, day-of-month overflow rolling
  into following months).  Calendar/day conversions use the standard civil
  calendar algorithms on `Int`.
* Monetary amounts and rates are exact rationals (`ℚ`); JavaScript floating
  point is modelled by exact arithmetic, with `Math.round` as
  `fun x => Int.floor (x + 1/2)`.
* Database rows are Lean structures, a prisma update is a functional record
  update, and a `$transaction` body is a single pure state transformation.
* A thrown error / rejected promise is `Except.error`.
-/

namespace AGV

/-! ### Civil calendar and ECMAScript date arithmetic -/

/-- Milliseconds per day. -/
def msPerDay : Int := 86400000

/-- Milliseconds in 30.44 days, the approximate month used by
`calculateNextDueDate` (`1000 * 60 * 60 * 24 * 30.44` is the exact integer
`2630016000`). -/
def msPerMonth3044 : Int := 2630016000

/-- Day number (days since 1970-01-01) of the civil date `(y, m, d)` with
`m` in `1..12`.  Standard civil-from-days algorithm. -/
def daysFromCivil (y m d : Int) : Int :=
  let y := if m ≤ 2 then y - 1 else y
  let era := y.fdiv 400
  let yoe := y - era * 400
  let doy := (153 * (m + (if 2 < m then -3 else 9)) + 2).fdiv 5 + d - 1
  let doe := yoe * 365 + yoe.fdiv 4 - yoe.fdiv 100 + doy
  era * 146097 + doe - 719468

/-- Civil date `(y, m, d)` (month `1..12`) of a day number. -/
def civilFromDays (z : Int) : Int × Int × Int :=
  let z := z + 719468
  let era := z.fdiv 146097
  let doe := z - era * 146097
  let yoe := (doe - doe.fdiv 1460 + doe.fdiv 36524 - doe.fdiv 146096).fdiv 365
  let y := yoe + era * 400
  let doy := doe - (365 * yoe + yoe.fdiv 4 - yoe.fdiv 100)
  let mp := (5 * doy + 2).fdiv 153
  let d := doy - (153 * mp + 2).fdiv 5 + 1
  let m := mp + (if mp < 10 then 3 else -9)
  (if m ≤ 2 then y + 1 else y, m, d)

/-- Day number of a timestamp. -/
def dayOf (t : Int) : Int := t.fdiv msPerDay

/-- Time-of-day (milliseconds within the day) of a timestamp. -/
def timeOfDay (t : Int) : Int := t - dayOf t * msPerDay

/-- JavaScript `Date.prototype.getFullYear` (UTC). -/
def getFullYear (t : Int) : Int := (civilFromDays (dayOf t)).1

/-- JavaScript `Date.prototype.getMonth` (UTC, 0-based). -/
def getMonth (t : Int) : Int := (civilFromDays (dayOf t)).2.1 - 1

/-- JavaScript `Date.prototype.getDate` (UTC, day of month 1..31). -/
def getDate (t : Int) : Int := (civilFromDays (dayOf t)).2.2

/-- ECMAScript `MakeDay(y, m, date)`: month index `m` (0-based, any integer)
is normalised into the year, and `date` may overflow the month, rolling into
following months. -/
def mkDay (y m date : Int) : Int :=
  let ym := y + m.fdiv 12
  let mn := m.emod 12
  daysFromCivil ym (mn + 1) 1 + (date - 1)

/-- JavaScript `d.setMonth(m)`: keeps year, day-of-month and time-of-day,
replaces the month index (normalising overflow). -/
def setMonth (t m : Int) : Int :=
  mkDay (getFullYear t) m (getDate t) * msPerDay + timeOfDay t

/-- JavaScript `d.setDate(date)`: keeps year, month and time-of-day, replaces
the day-of-month (overflow rolls into the following months). -/
def setDate (t date : Int) : Int :=
  mkDay (getFullYear t) (getMonth t) date * msPerDay + timeOfDay t

/-- Timestamp (midnight UTC) of a civil date, month `1..12`. -/
def utc (y m d : Int) : Int := daysFromCivil y m d * msPerDay

/-! ### Currency rounding and the loan terms calculator -/

/-- JavaScript `Math.round` (half toward positive infinity). -/
def jsRound (x : ℚ) : Int := Int.floor (x + 1 / 2)

/-- `Math.round(x * 100) / 100`: rounding to 2 decimal places as done at every
currency computation boundary. -/
def round2 (x : ℚ) : ℚ := (jsRound (x * 100) : ℚ) / 100

/-- Source `calculateEMI` (src/src/utils/helpers.ts): amortizing-loan formula
with monthly rate `rate / (12 * 100)`, rounded to 2 decimals. -/
def calculateEMI (principal rate : ℚ) (tenure : ℕ) : ℚ :=
  let monthlyRate := rate / (12 * 100)
  let emi := (principal * monthlyRate * (1 + monthlyRate) ^ tenure) /
              ((1 + monthlyRate) ^ tenure - 1)
  round2 emi

/-- EMI formula written from the spec text: `EMI = P·r·(1+r)^n / ((1+r)^n − 1)`
with monthly rate `r = annualRate/1200`, rounded to 2 decimal places. -/
def emiSpec (principal rate : ℚ) (tenure : ℕ) : ℚ :=
  let r := rate / 1200
  round2 ((principal * r * (1 + r) ^ tenure) / ((1 + r) ^ tenure - 1))

/-! ### Data model -/

/-- Loan lifecycle status (prisma enum `LoanStatus`). -/
inductive LoanStatus where
  | PENDING | APPROVED | ACTIVE | COMPLETED | REJECTED | DEFAULTED
deriving DecidableEq, Repr

/-- Penalty configuration type (prisma enum `PenaltyType`). -/
inductive PenaltyType where
  | PERCENTAGE | FIXED
deriving DecidableEq, Repr

/-- Payment transaction type (prisma enum `PaymentType`). -/
inductive PaymentType where
  | LOAN_DISBURSEMENT | EMI_PAYMENT | PARTIAL_PAYMENT
  | INTEREST_PAYMENT | PENALTY_PAYMENT | LOAN_CLOSURE
deriving DecidableEq, Repr

/-- Payment status (prisma enum `PaymentStatus`). -/
inductive PaymentStatus where
  | PENDING | COMPLETED | FAILED | CANCELLED
deriving DecidableEq, Repr

/-- Loan row: the fields of the prisma `Loan` model that the lifecycle core
reads or writes.  Dates are millisecond timestamps. -/
structure Loan where
  status : LoanStatus
  principalAmount : ℚ
  interestRate : ℚ
  tenure : ℕ
  emiAmount : ℚ
  outstandingBalance : ℚ
  totalAmountPaid : ℚ
  disbursementDate : Option Int
  lastPaymentDate : Option Int
  maturityDate : Option Int
  isOverdue : Bool
  daysOverdue : Int
  overdueAmount : ℚ
  penaltyAmount : ℚ
  nextDueDate : Option Int
  overdueSince : Option Int
  penaltyRate : ℚ
  penaltyType : PenaltyType
deriving DecidableEq, Repr

/-- Payment row: the fields of the prisma `Payment` model the claims are
about. -/
structure Payment where
  amount : ℚ
  paymentType : PaymentType
  status : PaymentStatus
deriving DecidableEq, Repr

/-- Result record of `OverdueService.calculateOverdueStatus`. -/
structure OverdueCalculationResult where
  isOverdue : Bool
  daysOverdue : Int
  overdueAmount : ℚ
  penaltyAmount : ℚ
  nextDueDate : Option Int
deriving DecidableEq, Repr

/-! ### OverdueService (src/src/services/overdueService.ts)

Each method taking the implicit current time (`new Date()`) receives it as an
explicit `now : Int` parameter. -/

/-- Source `OverdueService.calculateNextDueDate`.
`Math.floor((now - disbursement) / (1000*60*60*24*30.44))` is modelled as
exact integer floor division by `msPerMonth3044` (the product is the exact
integer `2630016000`). -/
def calculateNextDueDate (now : Int) (loan : Loan) : Option Int :=
  match loan.disbursementDate with
  | none => none
  | some disbursementDate =>
    match loan.lastPaymentDate with
    | some lastPaymentDate =>
      let nextDue := setMonth lastPaymentDate (getMonth lastPaymentDate + 1)
      let nextDue := setDate nextDue (getDate disbursementDate)
      some nextDue
    | none =>
      let nextDue := setMonth disbursementDate (getMonth disbursementDate + 1)
      if nextDue < now then
        let monthsSinceDisbursement := (now - disbursementDate).fdiv msPerMonth3044
        let nextDue := setMonth nextDue (getMonth disbursementDate + monthsSinceDisbursement + 1)
        let nextDue := setDate nextDue (getDate disbursementDate)
        some nextDue
      else
        some nextDue

/-- Source `OverdueService.calculatePenalty`. -/
def calculatePenalty (loan : Loan) (daysOverdue : Int) (overdueAmount : ℚ) : ℚ :=
  if daysOverdue ≤ 0 then 0
  else
    let penaltyRate := loan.penaltyRate
    if loan.penaltyType = PenaltyType.PERCENTAGE then
      overdueAmount * (penaltyRate / 100 / 365) * daysOverdue
    else
      penaltyRate * daysOverdue

/-- Source `OverdueService.calculateOverdueStatus`. -/
def calculateOverdueStatus (now : Int) (loan : Loan) : OverdueCalculationResult :=
  if loan.status ≠ LoanStatus.ACTIVE then
    { isOverdue := false, daysOverdue := 0, overdueAmount := 0,
      penaltyAmount := 0, nextDueDate := none }
  else
    match calculateNextDueDate now loan with
    | none =>
      { isOverdue := false, daysOverdue := 0, overdueAmount := 0,
        penaltyAmount := 0, nextDueDate := none }
    | some nextDueDate =>
      if now ≤ nextDueDate then
        { isOverdue := false, daysOverdue := 0, overdueAmount := 0,
          penaltyAmount := 0, nextDueDate := some nextDueDate }
      else
        let daysOverdue := (now - nextDueDate).fdiv msPerDay
        let emiAmount := loan.emiAmount
        let outstanding := loan.outstandingBalance
        let overdueAmount := min emiAmount outstanding
        let penaltyAmount := calculatePenalty loan daysOverdue overdueAmount
        { isOverdue := true, daysOverdue := daysOverdue,
          overdueAmount := overdueAmount, penaltyAmount := penaltyAmount,
          nextDueDate := some nextDueDate }

/-- Source `OverdueService.updateLoanOverdueStatus`, as the pure transformation
of the found loan row (the `prisma.loan.update` with the overdue snapshot). -/
def updateLoanOverdueStatus (now : Int) (loan : Loan) : Loan :=
  let overdueStatus := calculateOverdueStatus now loan
  { loan with
    isOverdue := overdueStatus.isOverdue,
    daysOverdue := overdueStatus.daysOverdue,
    overdueAmount := overdueStatus.overdueAmount,
    penaltyAmount := overdueStatus.penaltyAmount,
    nextDueDate := overdueStatus.nextDueDate,
    overdueSince :=
      if overdueStatus.isOverdue && !loan.isOverdue then some now
      else loan.overdueSince }

/-- Source `OverdueService.checkAndMarkDefaulted`, as the pure transformation
of the found loan row, paired with the returned boolean. -/
def checkAndMarkDefaulted (loan : Loan) (defaultThresholdDays : Int) : Loan × Bool :=
  if !loan.isOverdue then (loan, false)
  else if defaultThresholdDays ≤ loan.daysOverdue then
    ({ loan with status := LoanStatus.DEFAULTED }, true)
  else (loan, false)

/-- Aggregate counters returned by `OverdueService.updateAllOverdueLoans`. -/
structure SweepResult where
  totalProcessed : ℕ
  newOverdueCount : ℕ
  clearedOverdueCount : ℕ
deriving DecidableEq, Repr

/-- The `for (const loan of activeLoans)` loop body of
`OverdueService.updateAllOverdueLoans`.  The per-loan `prisma.loan.update` is
fallible: `updateOk i` tells whether the update of the `i`-th loan of the list
succeeds or throws.  The loop has no per-loan try/catch, so a throw leaves the
already-updated prefix committed, leaves the failing and all remaining loans
untouched, and rejects the whole call (`Except.error`); on success it returns
the accumulated `(newOverdueCount, clearedOverdueCount)`. -/
def sweepLoop (now : Int) (updateOk : ℕ → Bool) (i : ℕ) :
    List Loan → List Loan × Except Unit (ℕ × ℕ)
  | [] => ([], Except.ok (0, 0))
  | loan :: rest =>
    if updateOk i then
      let wasOverdue := loan.isOverdue
      let overdueStatus := calculateOverdueStatus now loan
      let updated :=
        { loan with
          isOverdue := overdueStatus.isOverdue,
          daysOverdue := overdueStatus.daysOverdue,
          overdueAmount := overdueStatus.overdueAmount,
          penaltyAmount := overdueStatus.penaltyAmount,
          nextDueDate := overdueStatus.nextDueDate,
          overdueSince :=
            if overdueStatus.isOverdue && !wasOverdue then some now
            else loan.overdueSince }
      let newInc : ℕ := if !wasOverdue && overdueStatus.isOverdue then 1 else 0
      let clearedInc : ℕ := if wasOverdue && !overdueStatus.isOverdue then 1 else 0
      match sweepLoop now updateOk (i + 1) rest with
      | (rest', Except.ok (n, c)) => (updated :: rest', Except.ok (newInc + n, clearedInc + c))
      | (rest', Except.error e) => (updated :: rest', Except.error e)
    else
      (loan :: rest, Except.error ())

/-- Source `OverdueService.updateAllOverdueLoans`: sweep over the list of
ACTIVE loans, returning the resulting persisted rows together with either the
aggregate counters or the propagated per-loan failure. -/
def updateAllOverdueLoans (now : Int) (updateOk : ℕ → Bool) (activeLoans : List Loan) :
    List Loan × Except Unit SweepResult :=
  match sweepLoop now updateOk 0 activeLoans with
  | (loans', Except.ok (n, c)) =>
    (loans', Except.ok { totalProcessed := activeLoans.length,
                         newOverdueCount := n, clearedOverdueCount := c })
  | (loans', Except.error e) => (loans', Except.error e)

/-! ### Payment ledger (POST /api/payments in src/src/routes/payments.ts) -/

/-- The `['EMI_PAYMENT', 'PARTIAL_PAYMENT', 'LOAN_CLOSURE'].includes(...)`
test guarding the balance update. -/
def isAmortizingType : PaymentType → Bool
  | PaymentType.EMI_PAYMENT => true
  | PaymentType.PARTIAL_PAYMENT => true
  | PaymentType.LOAN_CLOSURE => true
  | _ => false

/-- The loan-balance update inside the payment transaction: new totals from
the loan's current persisted balances, outstanding floored at 0, last-payment
date stamped, status overwritten to COMPLETED when the un-floored new
outstanding is `≤ 0`, otherwise left unchanged. -/
def applyAmortizingPayment (now : Int) (loan : Loan) (amount : ℚ) : Loan :=
  let newTotalPaid := loan.totalAmountPaid + amount
  let newOutstanding := loan.outstandingBalance - amount
  { loan with
    totalAmountPaid := newTotalPaid,
    outstandingBalance := max 0 newOutstanding,
    lastPaymentDate := some now,
    status := if newOutstanding ≤ 0 then LoanStatus.COMPLETED else loan.status }

/-- Source `POST /api/payments` handler: 404 (`Except.error`) when the loan
lookup finds nothing; otherwise one atomic transaction creating the payment
with status COMPLETED and, for EMI/PARTIAL/CLOSURE types only, applying the
balance update to the loan row.  Returns the persisted loan row and payment
row. -/
def recordPayment (now : Int) (loanLookup : Option Loan) (amount : ℚ)
    (paymentType : PaymentType) : Except Unit (Loan × Payment) :=
  match loanLookup with
  | none => Except.error ()
  | some loan =>
    let payment : Payment :=
      { amount := amount, paymentType := paymentType,
        status := PaymentStatus.COMPLETED }
    if isAmortizingType paymentType then
      Except.ok (applyAmortizingPayment now loan amount, payment)
    else
      Except.ok (loan, payment)

/-! ### Loan creation and disbursement (src/unnamed loans route) -/

/-- Source `POST /api/loans` handler, restricted to the fields of the loan
row the claims are about: `maturityDate` is computed from `new Date()` (the
creation instant) plus `tenure` months, `outstandingBalance` starts at the
principal, and the loan starts PENDING with no disbursement date. -/
def createLoan (now : Int) (principalAmount interestRate : ℚ) (tenure : ℕ)
    (penaltyRate : ℚ) (penaltyType : PenaltyType) : Loan :=
  { status := LoanStatus.PENDING,
    principalAmount := principalAmount,
    interestRate := interestRate,
    tenure := tenure,
    emiAmount := calculateEMI principalAmount interestRate tenure,
    outstandingBalance := principalAmount,
    totalAmountPaid := 0,
    disbursementDate := none,
    lastPaymentDate := none,
    maturityDate := some (setMonth now (getMonth now + tenure)),
    isOverdue := false,
    daysOverdue := 0,
    overdueAmount := 0,
    penaltyAmount := 0,
    nextDueDate := none,
    overdueSince := none,
    penaltyRate := penaltyRate,
    penaltyType := penaltyType }

/-- Source `PUT /api/loans/:id/disburse` handler: stamps the disbursement
date and activates the loan; no other loan field is written. -/
def disburseLoan (now : Int) (loan : Loan) : Loan :=
  { loan with status := LoanStatus.ACTIVE, disbursementDate := some now }

/-! ### Specification-side definitions used for refinement comparisons -/

/-- Calendar-month addition as described by the spec (ECMAScript month-index
addition; day-of-month overflow rolls into the next month). -/
def addCalendarMonths (t k : Int) : Int := setMonth t (getMonth t + k)

/-- Advance `base` by `k` calendar months and force the day-of-month to
`day`, anchoring year and month at `base` itself (overflow accepted). -/
def addMonthsPinDay (base k day : Int) : Int :=
  mkDay (getFullYear base) (getMonth base + k) day * msPerDay + timeOfDay base

/-- Modelled from the spec: next-due-date rule as the spec words it.  The
no-payment catch-up case advances by `floor((now − disbursementDate) /
30.44 days) + 1` whole months **from the disbursement date** and re-pins the
day-of-month to the disbursement day. -/
def nextDueDateSpec (now : Int) (loan : Loan) : Option Int :=
  match loan.disbursementDate with
  | none => none
  | some disbursementDate =>
    match loan.lastPaymentDate with
    | some lastPaymentDate =>
      some (setDate (setMonth lastPaymentDate (getMonth lastPaymentDate + 1))
              (getDate disbursementDate))
    | none =>
      let firstDue := setMonth disbursementDate (getMonth disbursementDate + 1)
      if firstDue < now then
        let monthsElapsed := (now - disbursementDate).fdiv msPerMonth3044
        some (addMonthsPinDay disbursementDate (monthsElapsed + 1)
                (getDate disbursementDate))
      else
        some firstDue

/-! ### Concrete fixtures -/

/-- A concrete ACTIVE loan used by witnesses and counterexamples: 24% p.a.
PERCENTAGE penalty, EMI 5000, outstanding 12000, disbursed 2023-12-15. -/
def baseLoan : Loan :=
  { status := LoanStatus.ACTIVE, principalAmount := 100000, interestRate := 12,
    tenure := 12, emiAmount := 5000, outstandingBalance := 12000,
    totalAmountPaid := 0, disbursementDate := some (utc 2023 12 15),
    lastPaymentDate := none, maturityDate := none, isOverdue := false,
    daysOverdue := 0, overdueAmount := 0, penaltyAmount := 0,
    nextDueDate := none, overdueSince := none, penaltyRate := 24,
    penaltyType := PenaltyType.PERCENTAGE }

/-- ACTIVE loan disbursed 2024-01-10 whose last payment was 2024-02-12; its
next due date 2024-03-10 is 46 days before the reference time 2024-04-25. -/
def c2Loan : Loan :=
  { baseLoan with disbursementDate := some (utc 2024 1 10),
                  lastPaymentDate := some (utc 2024 2 12) }

/-- Per-loan update oracle that always succeeds. -/
def allOkFn : ℕ → Bool := fun _ => true

/-- Per-loan update oracle that throws on the first loan and succeeds on all
later ones. -/
def failFirstFn : ℕ → Bool := fun i => decide (0 < i)

/-- Number of loans of a sweep input that transition not-overdue → overdue. -/
def countNew (now : Int) (loans : List Loan) : ℕ :=
  (loans.filter
    (fun l => !l.isOverdue && (calculateOverdueStatus now l).isOverdue)).length

/-- Number of loans of a sweep input that transition overdue → not-overdue. -/
def countCleared (now : Int) (loans : List Loan) : ℕ :=
  (loans.filter
    (fun l => l.isOverdue && !(calculateOverdueStatus now l).isOverdue)).length

/-- COMPLETED loan carrying stale overdue data, used by the C5 witness. -/
def c5CompletedLoan : Loan :=
  { baseLoan with status := LoanStatus.COMPLETED, isOverdue := true,
                  daysOverdue := 50 }

/-- December-disbursed loan with no payments, used for claim C4. -/
def c4DecemberLoan : Loan :=
  { baseLoan with disbursementDate := some (utc 2023 12 15),
                  lastPaymentDate := none }

/-- ACTIVE loan that was overdue (overdueSince 2024-02-11) but whose recent
payment on 2024-03-05 makes it current again at 2024-03-20. -/
def c6RecoveredLoan : Loan :=
  { baseLoan with disbursementDate := some (utc 2024 1 10),
                  lastPaymentDate := some (utc 2024 3 5),
                  isOverdue := true, overdueSince := some (utc 2024 2 11) }

/-- Loan application created 2024-01-10 (tenure 12), used for claim C9. -/
def c9CreatedLoan : Loan :=
  createLoan (utc 2024 1 10) 100000 12 12 24 PenaltyType.PERCENTAGE

/-! ### Claims about the payment ledger -/

/-- C1: `RecordPayment` fails with NotFound when the loan does not exist;
otherwise for EMI/PARTIAL/CLOSURE payments, within the one transaction the
outstanding balance becomes `max 0 (previous − amount)`, `totalAmountPaid`
grows by exactly the amount, `lastPaymentDate` is stamped with now, a payment
driving the balance to 0 makes the status COMPLETED, and a payment leaving a
positive balance leaves the status unchanged. -/
theorem recordPayment_c1 (now : Int) (loan : Loan) (amount : ℚ)
    (pt : PaymentType) (h : isAmortizingType pt = true) :
    recordPayment now none amount pt = Except.error () ∧
    recordPayment now (some loan) amount pt =
      Except.ok (applyAmortizingPayment now loan amount,
        { amount := amount, paymentType := pt,
          status := PaymentStatus.COMPLETED }) ∧
    (applyAmortizingPayment now loan amount).outstandingBalance
      = max 0 (loan.outstandingBalance - amount) ∧
    (applyAmortizingPayment now loan amount).totalAmountPaid
      = loan.totalAmountPaid + amount ∧
    (applyAmortizingPayment now loan amount).lastPaymentDate = some now ∧
    ((applyAmortizingPayment now loan amount).outstandingBalance = 0 →
      (applyAmortizingPayment now loan amount).status = LoanStatus.COMPLETED) ∧
    (0 < (applyAmortizingPayment now loan amount).outstandingBalance →
      (applyAmortizingPayment now loan amount).status = loan.status) := by
  refine ⟨rfl, by simp [recordPayment, h], rfl, rfl, rfl, ?_, ?_⟩
  · intro h0
    have hb : loan.outstandingBalance - amount ≤ 0 :=
      max_eq_left_iff.mp h0
    show (if loan.outstandingBalance - amount ≤ 0 then LoanStatus.COMPLETED
          else loan.status) = LoanStatus.COMPLETED
    rw [if_pos hb]
  · intro h0
    have hb : ¬ loan.outstandingBalance - amount ≤ 0 := by
      intro hb
      rw [show (applyAmortizingPayment now loan amount).outstandingBalance
            = max 0 (loan.outstandingBalance - amount) from rfl,
          max_eq_left hb] at h0
      exact lt_irrefl 0 h0
    show (if loan.outstandingBalance - amount ≤ 0 then LoanStatus.COMPLETED
          else loan.status) = loan.status
    rw [if_neg hb]

/-- Witness for C1: an EMI payment of 5000 against the concrete loan at
2024-02-17. -/
theorem recordPayment_c1_witness :
    isAmortizingType PaymentType.EMI_PAYMENT = true ∧
    (recordPayment (utc 2024 2 17) none 5000 PaymentType.EMI_PAYMENT
        = Except.error () ∧
      recordPayment (utc 2024 2 17) (some baseLoan) 5000 PaymentType.EMI_PAYMENT =
        Except.ok (applyAmortizingPayment (utc 2024 2 17) baseLoan 5000,
          { amount := 5000, paymentType := PaymentType.EMI_PAYMENT,
            status := PaymentStatus.COMPLETED }) ∧
      (applyAmortizingPayment (utc 2024 2 17) baseLoan 5000).outstandingBalance
        = max 0 (baseLoan.outstandingBalance - 5000) ∧
      (applyAmortizingPayment (utc 2024 2 17) baseLoan 5000).totalAmountPaid
        = baseLoan.totalAmountPaid + 5000 ∧
      (applyAmortizingPayment (utc 2024 2 17) baseLoan 5000).lastPaymentDate
        = some (utc 2024 2 17) ∧
      ((applyAmortizingPayment (utc 2024 2 17) baseLoan 5000).outstandingBalance = 0 →
        (applyAmortizingPayment (utc 2024 2 17) baseLoan 5000).status
          = LoanStatus.COMPLETED) ∧
      (0 < (applyAmortizingPayment (utc 2024 2 17) baseLoan 5000).outstandingBalance →
        (applyAmortizingPayment (utc 2024 2 17) baseLoan 5000).status
          = baseLoan.status)) :=
  ⟨by decide, recordPayment_c1 (utc 2024 2 17) baseLoan 5000
      PaymentType.EMI_PAYMENT (by decide)⟩

/-- C10 (implicit): the payment path checks no loan-status precondition
beyond existence: whatever the loan's status, an EMI/PARTIAL/CLOSURE payment
is accepted (never an InvalidState error), the payment row is persisted as
COMPLETED, the balance update is applied, and if the un-floored new balance
reaches 0 the status is overwritten to COMPLETED even from a non-ACTIVE
status. -/
theorem recordPayment_c10 (now : Int) (loan : Loan) (s : LoanStatus)
    (amount : ℚ) (pt : PaymentType) (h : isAmortizingType pt = true) :
    recordPayment now (some { loan with status := s }) amount pt =
      Except.ok (applyAmortizingPayment now { loan with status := s } amount,
        { amount := amount, paymentType := pt,
          status := PaymentStatus.COMPLETED }) ∧
    (applyAmortizingPayment now { loan with status := s } amount).outstandingBalance
      = max 0 (loan.outstandingBalance - amount) ∧
    (applyAmortizingPayment now { loan with status := s } amount).totalAmountPaid
      = loan.totalAmountPaid + amount ∧
    (loan.outstandingBalance - amount ≤ 0 →
      (applyAmortizingPayment now { loan with status := s } amount).status
        = LoanStatus.COMPLETED) := by
  refine ⟨by simp [recordPayment, h], rfl, rfl, ?_⟩
  intro h0
  show (if loan.outstandingBalance - amount ≤ 0 then LoanStatus.COMPLETED
        else s) = LoanStatus.COMPLETED
  rw [if_pos h0]

/-- Witness for C10: a CLOSURE payment of 12000 fully paying off the concrete
loan while its status is REJECTED still completes it. -/
theorem recordPayment_c10_witness :
    isAmortizingType PaymentType.LOAN_CLOSURE = true ∧
    baseLoan.outstandingBalance - 12000 ≤ 0 ∧
    (recordPayment (utc 2024 2 17)
        (some { baseLoan with status := LoanStatus.REJECTED }) 12000
        PaymentType.LOAN_CLOSURE =
      Except.ok (applyAmortizingPayment (utc 2024 2 17)
          { baseLoan with status := LoanStatus.REJECTED } 12000,
        { amount := 12000, paymentType := PaymentType.LOAN_CLOSURE,
          status := PaymentStatus.COMPLETED }) ∧
    (applyAmortizingPayment (utc 2024 2 17)
        { baseLoan with status := LoanStatus.REJECTED } 12000).outstandingBalance
      = max 0 (baseLoan.outstandingBalance - 12000) ∧
    (applyAmortizingPayment (utc 2024 2 17)
        { baseLoan with status := LoanStatus.REJECTED } 12000).totalAmountPaid
      = baseLoan.totalAmountPaid + 12000 ∧
    (baseLoan.outstandingBalance - 12000 ≤ 0 →
      (applyAmortizingPayment (utc 2024 2 17)
          { baseLoan with status := LoanStatus.REJECTED } 12000).status
        = LoanStatus.COMPLETED)) :=
  ⟨by decide, by norm_num [baseLoan],
    recordPayment_c10 (utc 2024 2 17) baseLoan LoanStatus.REJECTED 12000
      PaymentType.LOAN_CLOSURE (by decide)⟩

/-! ### Claims about the overdue calculation -/

/-- C2: for an ACTIVE loan, `calculateOverdueStatus` reports not-overdue with
all amounts 0 when there is no next due date or now is not past it; otherwise
overdue with `daysOverdue = floor((now − nextDueDate) / 1 day)` and
`overdueAmount = min emiAmount outstandingBalance`, capping the exposure at
one EMI installment and at the remaining balance. -/
theorem calculateOverdueStatus_c2 (now : Int) (loan : Loan)
    (h : loan.status = LoanStatus.ACTIVE) :
    (calculateNextDueDate now loan = none →
      calculateOverdueStatus now loan =
        { isOverdue := false, daysOverdue := 0, overdueAmount := 0,
          penaltyAmount := 0, nextDueDate := none }) ∧
    (∀ d, calculateNextDueDate now loan = some d → now ≤ d →
      calculateOverdueStatus now loan =
        { isOverdue := false, daysOverdue := 0, overdueAmount := 0,
          penaltyAmount := 0, nextDueDate := some d }) ∧
    (∀ d, calculateNextDueDate now loan = some d → d < now →
      (calculateOverdueStatus now loan).isOverdue = true ∧
      (calculateOverdueStatus now loan).daysOverdue = (now - d).fdiv msPerDay ∧
      (calculateOverdueStatus now loan).overdueAmount
        = min loan.emiAmount loan.outstandingBalance ∧
      (calculateOverdueStatus now loan).overdueAmount ≤ loan.emiAmount ∧
      (calculateOverdueStatus now loan).overdueAmount ≤ loan.outstandingBalance ∧
      (calculateOverdueStatus now loan).nextDueDate = some d) := by
  have hs : ¬ loan.status ≠ LoanStatus.ACTIVE := by simp [h]
  refine ⟨?_, ?_, ?_⟩
  · intro hn
    simp [calculateOverdueStatus, hs, hn]
  · intro d hd hle
    simp [calculateOverdueStatus, hs, hd, hle]
  · intro d hd hlt
    have hle : ¬ now ≤ d := not_le.mpr hlt
    refine ⟨?_, ?_, ?_, ?_, ?_, ?_⟩ <;>
      simp [calculateOverdueStatus, hs, hd, hle, min_le_left, min_le_right]

/-- Witness for C2: the concrete loan last paid 2024-02-12 is 46 days overdue
at 2024-04-25. -/
theorem calculateOverdueStatus_c2_witness :
    c2Loan.status = LoanStatus.ACTIVE ∧
    calculateNextDueDate (utc 2024 4 25) c2Loan = some (utc 2024 3 10) ∧
    utc 2024 3 10 < utc 2024 4 25 ∧
    ((calculateOverdueStatus (utc 2024 4 25) c2Loan).isOverdue = true ∧
      (calculateOverdueStatus (utc 2024 4 25) c2Loan).daysOverdue
        = (utc 2024 4 25 - utc 2024 3 10).fdiv msPerDay ∧
      (calculateOverdueStatus (utc 2024 4 25) c2Loan).overdueAmount
        = min c2Loan.emiAmount c2Loan.outstandingBalance ∧
      (calculateOverdueStatus (utc 2024 4 25) c2Loan).overdueAmount
        ≤ c2Loan.emiAmount ∧
      (calculateOverdueStatus (utc 2024 4 25) c2Loan).overdueAmount
        ≤ c2Loan.outstandingBalance ∧
      (calculateOverdueStatus (utc 2024 4 25) c2Loan).nextDueDate
        = some (utc 2024 3 10)) ∧
    (utc 2024 4 25 - utc 2024 3 10).fdiv msPerDay = 46 :=
  ⟨rfl, by decide, by decide,
    (calculateOverdueStatus_c2 (utc 2024 4 25) c2Loan rfl).2.2
      (utc 2024 3 10) (by decide) (by decide),
    by decide⟩

/-- C3: for an overdue loan the penalty is
`overdueAmount × (penaltyRate/100/365) × daysOverdue` for PERCENTAGE penalty
type and `penaltyRate × daysOverdue` (ignoring the overdue amount) for FIXED;
`daysOverdue ≤ 0` yields penalty 0; and the concrete PERCENTAGE example
(overdueAmount 10000, rate 24, 30 days) rounds to 197.26. -/
theorem calculatePenalty_c3 (loan : Loan) (d : Int) (amt : ℚ) :
    (d ≤ 0 → calculatePenalty loan d amt = 0) ∧
    (0 < d → loan.penaltyType = PenaltyType.PERCENTAGE →
      calculatePenalty loan d amt
        = amt * (loan.penaltyRate / 100 / 365) * (d : ℚ)) ∧
    (0 < d → loan.penaltyType = PenaltyType.FIXED →
      calculatePenalty loan d amt = loan.penaltyRate * (d : ℚ)) ∧
    calculatePenalty baseLoan 30 10000 = 14400 / 73 ∧
    round2 (calculatePenalty baseLoan 30 10000) = 197.26 := by
  have hc : calculatePenalty baseLoan 30 10000 = 14400 / 73 := by
    simp only [calculatePenalty, baseLoan]
    norm_num
  refine ⟨?_, ?_, ?_, hc, ?_⟩
  · intro hd
    simp [calculatePenalty, if_pos hd]
  · intro hd hp
    have hd2 : ¬ d ≤ 0 := not_le.mpr hd
    simp [calculatePenalty, if_neg hd2, hp]
  · intro hd hp
    have hd2 : ¬ d ≤ 0 := not_le.mpr hd
    have hp2 : loan.penaltyType ≠ PenaltyType.PERCENTAGE := by
      rw [hp]; intro hcon; cases hcon
    simp [calculatePenalty, if_neg hd2, hp2]
  · rw [hc]
    simp only [round2, jsRound]
    norm_num

/-- Witness for C3: the PERCENTAGE formula applied to the concrete loan with
30 days overdue and 10000 overdue. -/
theorem calculatePenalty_c3_witness :
    (0 : Int) < 30 ∧ baseLoan.penaltyType = PenaltyType.PERCENTAGE ∧
    calculatePenalty baseLoan 30 10000
      = 10000 * (baseLoan.penaltyRate / 100 / 365) * ((30 : Int) : ℚ) :=
  ⟨by decide, rfl,
    (calculatePenalty_c3 baseLoan 30 10000).2.1 (by decide) rfl⟩

/-! ### Claim C4: the next-due-date rule -/

/-- Outside the no-payment catch-up branch the source agrees with the spec
rule verbatim. -/
theorem nextDueDate_agrees_outside_catchup (now : Int) (loan : Loan) :
    (loan.disbursementDate = none →
      calculateNextDueDate now loan = none ∧ nextDueDateSpec now loan = none) ∧
    (∀ lp, loan.lastPaymentDate = some lp →
      calculateNextDueDate now loan = nextDueDateSpec now loan) := by
  constructor
  · intro hd
    simp [calculateNextDueDate, nextDueDateSpec, hd]
  · intro lp hlp
    cases hd : loan.disbursementDate with
    | none => simp [calculateNextDueDate, nextDueDateSpec, hd]
    | some disb => simp [calculateNextDueDate, nextDueDateSpec, hd, hlp]

/-- C4 (failing input): a loan disbursed 2023-12-15 with no payments, observed
2024-03-20.  The catch-up branch applies the month index
`disbMonth + monthsSince + 1` to the `+1 month` date — whose year is already
2024 for a December disbursement — so the code produces the due date
2025-04-15, one year after the spec's
`disbursement + (monthsSince + 1) months = 2024-04-15`. -/
theorem calculateNextDueDate_c4_bug :
    calculateNextDueDate (utc 2024 3 20) c4DecemberLoan = some (utc 2025 4 15) ∧
    nextDueDateSpec (utc 2024 3 20) c4DecemberLoan = some (utc 2024 4 15) ∧
    utc 2025 4 15 ≠ utc 2024 4 15 := by
  refine ⟨by decide, by decide, by decide⟩

/-! ### Claim C5: overdue only while ACTIVE -/

/-- C5 (counterexample): marking a 120-days-overdue ACTIVE loan DEFAULTED
updates only the status — the persisted `isOverdue` flag and overdue amounts
stay as they were, contradicting "every operation that sets a non-ACTIVE
status leaves the persisted overdue fields forced to false with zero
amounts". -/
theorem checkAndMarkDefaulted_c5_counterexample :
    (checkAndMarkDefaulted
        { baseLoan with isOverdue := true, daysOverdue := 120 } 90).2 = true ∧
    (checkAndMarkDefaulted
        { baseLoan with isOverdue := true, daysOverdue := 120 } 90).1.status
      = LoanStatus.DEFAULTED ∧
    (checkAndMarkDefaulted
        { baseLoan with isOverdue := true, daysOverdue := 120 } 90).1.isOverdue
      = true ∧
    (checkAndMarkDefaulted
        { baseLoan with isOverdue := true, daysOverdue := 120 } 90).1.daysOverdue
      = 120 := by
  refine ⟨by decide, by decide, by decide, by decide⟩

/-- C5 (amended): `calculateOverdueStatus` reports not-overdue with all
amounts 0 for every non-ACTIVE status regardless of dates, and recomputing
via `updateLoanOverdueStatus` persists those forced values; but
`checkAndMarkDefaulted` writes only the status field and leaves every
persisted overdue field unchanged. -/
theorem overdueForcing_c5_amended (now : Int) (loan : Loan) (threshold : Int)
    (h : loan.status ≠ LoanStatus.ACTIVE) :
    calculateOverdueStatus now loan =
      { isOverdue := false, daysOverdue := 0, overdueAmount := 0,
        penaltyAmount := 0, nextDueDate := none } ∧
    (updateLoanOverdueStatus now loan).isOverdue = false ∧
    (updateLoanOverdueStatus now loan).daysOverdue = 0 ∧
    (updateLoanOverdueStatus now loan).overdueAmount = 0 ∧
    (updateLoanOverdueStatus now loan).penaltyAmount = 0 ∧
    (updateLoanOverdueStatus now loan).nextDueDate = none ∧
    (checkAndMarkDefaulted loan threshold).1.isOverdue = loan.isOverdue ∧
    (checkAndMarkDefaulted loan threshold).1.daysOverdue = loan.daysOverdue ∧
    (checkAndMarkDefaulted loan threshold).1.overdueAmount = loan.overdueAmount ∧
    (checkAndMarkDefaulted loan threshold).1.penaltyAmount = loan.penaltyAmount ∧
    (checkAndMarkDefaulted loan threshold).1.nextDueDate = loan.nextDueDate ∧
    (checkAndMarkDefaulted loan threshold).1.overdueSince = loan.overdueSince := by
  have hc : calculateOverdueStatus now loan =
      { isOverdue := false, daysOverdue := 0, overdueAmount := 0,
        penaltyAmount := 0, nextDueDate := none } := by
    simp [calculateOverdueStatus, h]
  have hframe :
      (checkAndMarkDefaulted loan threshold).1.isOverdue = loan.isOverdue ∧
      (checkAndMarkDefaulted loan threshold).1.daysOverdue = loan.daysOverdue ∧
      (checkAndMarkDefaulted loan threshold).1.overdueAmount = loan.overdueAmount ∧
      (checkAndMarkDefaulted loan threshold).1.penaltyAmount = loan.penaltyAmount ∧
      (checkAndMarkDefaulted loan threshold).1.nextDueDate = loan.nextDueDate ∧
      (checkAndMarkDefaulted loan threshold).1.overdueSince = loan.overdueSince := by
    unfold checkAndMarkDefaulted
    split
    · exact ⟨rfl, rfl, rfl, rfl, rfl, rfl⟩
    · split
      · exact ⟨rfl, rfl, rfl, rfl, rfl, rfl⟩
      · exact ⟨rfl, rfl, rfl, rfl, rfl, rfl⟩
  refine ⟨hc, ?_, ?_, ?_, ?_, ?_, hframe⟩ <;>
    simp [updateLoanOverdueStatus, hc]

/-- Witness for C5 (amended): a COMPLETED loan with stale overdue data is
forced back to not-overdue by recomputation, while checkAndMarkDefaulted
leaves its overdue fields alone. -/
theorem overdueForcing_c5_witness :
    c5CompletedLoan.status ≠ LoanStatus.ACTIVE ∧
    (calculateOverdueStatus (utc 2024 4 25) c5CompletedLoan =
      { isOverdue := false, daysOverdue := 0, overdueAmount := 0,
        penaltyAmount := 0, nextDueDate := none } ∧
    (updateLoanOverdueStatus (utc 2024 4 25) c5CompletedLoan).isOverdue = false ∧
    (updateLoanOverdueStatus (utc 2024 4 25) c5CompletedLoan).daysOverdue = 0 ∧
    (updateLoanOverdueStatus (utc 2024 4 25) c5CompletedLoan).overdueAmount = 0 ∧
    (updateLoanOverdueStatus (utc 2024 4 25) c5CompletedLoan).penaltyAmount = 0 ∧
    (updateLoanOverdueStatus (utc 2024 4 25) c5CompletedLoan).nextDueDate = none ∧
    (checkAndMarkDefaulted c5CompletedLoan 90).1.isOverdue
      = c5CompletedLoan.isOverdue ∧
    (checkAndMarkDefaulted c5CompletedLoan 90).1.daysOverdue
      = c5CompletedLoan.daysOverdue ∧
    (checkAndMarkDefaulted c5CompletedLoan 90).1.overdueAmount
      = c5CompletedLoan.overdueAmount ∧
    (checkAndMarkDefaulted c5CompletedLoan 90).1.penaltyAmount
      = c5CompletedLoan.penaltyAmount ∧
    (checkAndMarkDefaulted c5CompletedLoan 90).1.nextDueDate
      = c5CompletedLoan.nextDueDate ∧
    (checkAndMarkDefaulted c5CompletedLoan 90).1.overdueSince
      = c5CompletedLoan.overdueSince) :=
  ⟨by decide,
    overdueForcing_c5_amended (utc 2024 4 25) c5CompletedLoan 90 (by decide)⟩

/-! ### Claim C6: the overdueSince stamp -/

/-- C6 (counterexample): recomputing a formerly-overdue loan that is current
again leaves `overdueSince` at its old timestamp — it is never cleared, so
the claim's "whenever isOverdue becomes false again, overdueSince is cleared"
fails. -/
theorem overdueSince_c6_counterexample :
    (updateLoanOverdueStatus (utc 2024 3 20) c6RecoveredLoan).isOverdue
      = false ∧
    (updateLoanOverdueStatus (utc 2024 3 20) c6RecoveredLoan).overdueSince
      = some (utc 2024 2 11) ∧
    some (utc 2024 2 11) ≠ (none : Option Int) := by
  refine ⟨by decide, by decide, by decide⟩

/-- C6 (amended): `updateLoanOverdueStatus` stamps `overdueSince := now`
exactly on a not-overdue → overdue transition and leaves it unchanged in
every other case — in particular it is retained, not cleared, when
`isOverdue` becomes false; all loan fields outside the overdue snapshot are
unchanged; and the per-loan update inside the batch sweep persists exactly
the same row. -/
theorem updateLoanOverdueStatus_c6_amended (now : Int) (loan : Loan)
    (updateOk : ℕ → Bool) (i : ℕ) (rest : List Loan) :
    ((calculateOverdueStatus now loan).isOverdue = true →
      loan.isOverdue = false →
      (updateLoanOverdueStatus now loan).overdueSince = some now) ∧
    (loan.isOverdue = true →
      (updateLoanOverdueStatus now loan).overdueSince = loan.overdueSince) ∧
    ((calculateOverdueStatus now loan).isOverdue = false →
      (updateLoanOverdueStatus now loan).overdueSince = loan.overdueSince) ∧
    (updateLoanOverdueStatus now loan).status = loan.status ∧
    (updateLoanOverdueStatus now loan).principalAmount = loan.principalAmount ∧
    (updateLoanOverdueStatus now loan).interestRate = loan.interestRate ∧
    (updateLoanOverdueStatus now loan).tenure = loan.tenure ∧
    (updateLoanOverdueStatus now loan).emiAmount = loan.emiAmount ∧
    (updateLoanOverdueStatus now loan).outstandingBalance
      = loan.outstandingBalance ∧
    (updateLoanOverdueStatus now loan).totalAmountPaid = loan.totalAmountPaid ∧
    (updateLoanOverdueStatus now loan).disbursementDate
      = loan.disbursementDate ∧
    (updateLoanOverdueStatus now loan).lastPaymentDate = loan.lastPaymentDate ∧
    (updateLoanOverdueStatus now loan).maturityDate = loan.maturityDate ∧
    (updateLoanOverdueStatus now loan).penaltyRate = loan.penaltyRate ∧
    (updateLoanOverdueStatus now loan).penaltyType = loan.penaltyType ∧
    (updateOk i = true →
      (sweepLoop now updateOk i (loan :: rest)).1.head?
        = some (updateLoanOverdueStatus now loan)) := by
  refine ⟨?_, ?_, ?_, rfl, rfl, rfl, rfl, rfl, rfl, rfl, rfl, rfl, rfl, rfl,
    rfl, ?_⟩
  · intro h1 h2
    simp [updateLoanOverdueStatus, h1, h2]
  · intro h1
    simp [updateLoanOverdueStatus, h1]
  · intro h1
    simp [updateLoanOverdueStatus, h1]
  · intro hok
    show (sweepLoop now updateOk i (loan :: rest)).1.head? = _
    rw [sweepLoop]
    rw [if_pos hok]
    rcases hsw : sweepLoop now updateOk (i + 1) rest with ⟨rest2, r⟩
    cases r with
    | ok nc => rcases nc with ⟨n, c⟩; simp [hsw, updateLoanOverdueStatus]
    | error e => simp [hsw, updateLoanOverdueStatus]

/-- Witness for C6 (amended): the 46-days-overdue concrete loan transitions
not-overdue → overdue at 2024-04-25, so `overdueSince` is stamped with that
instant, and the sweep's update row matches. -/
theorem updateLoanOverdueStatus_c6_witness :
    (calculateOverdueStatus (utc 2024 4 25) c2Loan).isOverdue = true ∧
    c2Loan.isOverdue = false ∧
    allOkFn 0 = true ∧
    (updateLoanOverdueStatus (utc 2024 4 25) c2Loan).overdueSince
      = some (utc 2024 4 25) ∧
    (sweepLoop (utc 2024 4 25) allOkFn 0 [c2Loan]).1.head?
      = some (updateLoanOverdueStatus (utc 2024 4 25) c2Loan) :=
  ⟨by decide, by decide, by decide,
    (updateLoanOverdueStatus_c6_amended (utc 2024 4 25) c2Loan allOkFn 0
        []).1 (by decide) (by decide),
    (updateLoanOverdueStatus_c6_amended (utc 2024 4 25) c2Loan allOkFn 0
        []).2.2.2.2.2.2.2.2.2.2.2.2.2.2.2 (by decide)⟩

/-! ### Claim C7: the batch sweep and per-loan failures -/

/-- When every per-loan update succeeds, the sweep updates every loan and
accumulates the transition counters. -/
theorem sweepLoop_all_ok (now : Int) (updateOk : ℕ → Bool)
    (loans : List Loan) :
    ∀ i : ℕ, (∀ j, j < loans.length → updateOk (i + j) = true) →
      sweepLoop now updateOk i loans
        = (loans.map (updateLoanOverdueStatus now),
           Except.ok (countNew now loans, countCleared now loans)) := by
  induction loans with
  | nil =>
    intro i _
    simp [sweepLoop, countNew, countCleared]
  | cons loan rest ih =>
    intro i h
    have h0 : updateOk i = true := by simpa using h 0 (by simp)
    have hrec := ih (i + 1) (fun j hj => by
      have h2 := h (j + 1) (by simpa using Nat.succ_lt_succ hj)
      have harith : i + (j + 1) = i + 1 + j := by omega
      rwa [harith] at h2)
    rw [sweepLoop, if_pos h0, hrec]
    have hnew : countNew now (loan :: rest)
        = (if !loan.isOverdue && (calculateOverdueStatus now loan).isOverdue
            then 1 else 0) + countNew now rest := by
      simp only [countNew, List.filter_cons]
      split <;> simp [Nat.add_comm]
    have hcleared : countCleared now (loan :: rest)
        = (if loan.isOverdue && !(calculateOverdueStatus now loan).isOverdue
            then 1 else 0) + countCleared now rest := by
      simp only [countCleared, List.filter_cons]
      split <;> simp [Nat.add_comm]
    rw [List.map_cons, hnew, hcleared]
    rfl

/-- A failing per-loan update aborts the sweep: loans before the failure keep
their updates, the failing loan and everything after it are untouched, and
the whole call rejects. -/
theorem sweepLoop_abort (now : Int) (updateOk : ℕ → Bool)
    (loans : List Loan) :
    ∀ i j : ℕ, j < loans.length → updateOk (i + j) = false →
      (∀ k, k < j → updateOk (i + k) = true) →
      (sweepLoop now updateOk i loans).2 = Except.error () ∧
      (sweepLoop now updateOk i loans).1
        = (loans.take j).map (updateLoanOverdueStatus now) ++ loans.drop j := by
  induction loans with
  | nil =>
    intro i j hj
    simp at hj
  | cons loan rest ih =>
    intro i j hj hfail hpre
    cases j with
    | zero =>
      have h0 : updateOk i = false := by simpa using hfail
      have hstep : sweepLoop now updateOk i (loan :: rest)
          = (loan :: rest, Except.error ()) := by
        rw [sweepLoop, if_neg (by simp [h0])]
      rw [hstep]
      simp
    | succ j =>
      have h0 : updateOk i = true := by simpa using hpre 0 (Nat.succ_pos j)
      have hfail2 : updateOk (i + 1 + j) = false := by
        have harith : i + (j + 1) = i + 1 + j := by omega
        rwa [harith] at hfail
      have hpre2 : ∀ k, k < j → updateOk (i + 1 + k) = true := fun k hk => by
        have h2 := hpre (k + 1) (by omega)
        have harith : i + (k + 1) = i + 1 + k := by omega
        rwa [harith] at h2
      have hrec := ih (i + 1) j (by simpa using Nat.lt_of_succ_lt_succ hj)
        hfail2 hpre2
      rcases hsw : sweepLoop now updateOk (i + 1) rest with ⟨rest2, r⟩
      rw [hsw] at hrec
      cases r with
      | ok nc => simp at hrec
      | error e =>
        cases e
        rcases hrec with ⟨-, hlist⟩
        simp only at hlist
        have hstep : sweepLoop now updateOk i (loan :: rest)
            = (updateLoanOverdueStatus now loan :: rest2, Except.error ()) := by
          rw [sweepLoop, if_pos h0, hsw]
          rfl
        rw [hstep, hlist]
        exact ⟨rfl, by simp⟩

/-- C7 (counterexample): with the concrete two-loan store whose first update
throws, the sweep rejects, the second loan is left with its stale snapshot
(although recomputation would change it), and no aggregate counts are
returned — contradicting "a failure while processing one loan does not abort
processing of the remaining loans". -/
theorem sweep_c7_counterexample :
    (updateAllOverdueLoans (utc 2024 4 25) failFirstFn [c2Loan, c2Loan]).2
      = Except.error () ∧
    (updateAllOverdueLoans (utc 2024 4 25) failFirstFn [c2Loan, c2Loan]).1
      = [c2Loan, c2Loan] ∧
    (updateLoanOverdueStatus (utc 2024 4 25) c2Loan).nextDueDate
      ≠ c2Loan.nextDueDate := by
  refine ⟨rfl, rfl, by decide⟩

/-- C7 (amended): when every per-loan update succeeds the sweep updates all
active loans and returns the aggregate counts, but a per-loan failure aborts
the sweep — earlier loans keep their updates, the failing and all remaining
loans are unchanged, and the call rejects instead of returning counts. -/
theorem updateAllOverdueLoans_c7_amended (now : Int) (updateOk : ℕ → Bool)
    (loans : List Loan) (j : ℕ) :
    ((List.range loans.length).all updateOk = true →
      updateAllOverdueLoans now updateOk loans
        = (loans.map (updateLoanOverdueStatus now),
           Except.ok { totalProcessed := loans.length,
                       newOverdueCount := countNew now loans,
                       clearedOverdueCount := countCleared now loans })) ∧
    (j < loans.length → updateOk j = false →
      (List.range j).all updateOk = true →
      (updateAllOverdueLoans now updateOk loans).2 = Except.error () ∧
      (updateAllOverdueLoans now updateOk loans).1
        = (loans.take j).map (updateLoanOverdueStatus now) ++ loans.drop j) := by
  constructor
  · intro hall
    have hall2 : ∀ k, k < loans.length → updateOk (0 + k) = true := by
      intro k hk
      have := List.all_eq_true.mp hall k (List.mem_range.mpr hk)
      simpa using this
    rw [updateAllOverdueLoans, sweepLoop_all_ok now updateOk loans 0 hall2]
  · intro hj hfail hpre
    have hpre2 : ∀ k, k < j → updateOk (0 + k) = true := by
      intro k hk
      have := List.all_eq_true.mp hpre k (List.mem_range.mpr hk)
      simpa using this
    have habort := sweepLoop_abort now updateOk loans 0 j hj
      (by simpa using hfail) hpre2
    rw [updateAllOverdueLoans]
    rcases hsw : sweepLoop now updateOk 0 loans with ⟨loans2, r⟩
    rw [hsw] at habort
    cases r with
    | ok nc => simp at habort
    | error e => simpa using habort

/-- Witness for C7 (amended): the all-success sweep over one concrete loan
returns counts, and the first-throws sweep over two concrete loans aborts. -/
theorem updateAllOverdueLoans_c7_witness :
    (List.range (List.length [c2Loan])).all allOkFn = true ∧
    0 < List.length [c2Loan, c2Loan] ∧
    failFirstFn 0 = false ∧
    (List.range 0).all failFirstFn = true ∧
    (updateAllOverdueLoans (utc 2024 4 25) allOkFn [c2Loan]
      = ([c2Loan].map (updateLoanOverdueStatus (utc 2024 4 25)),
         Except.ok { totalProcessed := List.length [c2Loan],
                     newOverdueCount := countNew (utc 2024 4 25) [c2Loan],
                     clearedOverdueCount :=
                       countCleared (utc 2024 4 25) [c2Loan] })) ∧
    ((updateAllOverdueLoans (utc 2024 4 25) failFirstFn [c2Loan, c2Loan]).2
        = Except.error () ∧
      (updateAllOverdueLoans (utc 2024 4 25) failFirstFn [c2Loan, c2Loan]).1
        = ([c2Loan, c2Loan].take 0).map (updateLoanOverdueStatus (utc 2024 4 25))
            ++ [c2Loan, c2Loan].drop 0) :=
  ⟨by decide, by decide, by decide, by decide,
    (updateAllOverdueLoans_c7_amended (utc 2024 4 25) allOkFn [c2Loan] 0).1
      (by decide),
    (updateAllOverdueLoans_c7_amended (utc 2024 4 25) failFirstFn
        [c2Loan, c2Loan] 0).2 (by decide) (by decide) (by decide)⟩

/-! ### Claim C8: the EMI formula -/

/-- C8: for any principal, positive annual rate and tenure ≥ 1, the source
EMI equals the spec formula `P·r·(1+r)^n / ((1+r)^n − 1)` with `r = rate/1200`
rounded to 2 decimals, the denominator is nonzero, and the literal source
example gives `calculateEMI 100000 12 12 = 8884.88`. -/
theorem calculateEMI_c8 (P rate : ℚ) (n : ℕ) (hr : 0 < rate) (hn : 1 ≤ n) :
    calculateEMI P rate n = emiSpec P rate n ∧
    (1 + rate / 1200) ^ n - 1 ≠ 0 ∧
    calculateEMI 100000 12 12 = 8884.88 := by
  refine ⟨?_, ?_, ?_⟩
  · simp only [calculateEMI, emiSpec]
    norm_num
  · have h1 : (1 : ℚ) < 1 + rate / 1200 := by
      have : (0 : ℚ) < rate / 1200 := by positivity
      linarith
    have h2 : (1 : ℚ) < (1 + rate / 1200) ^ n :=
      one_lt_pow₀ h1 (Nat.one_le_iff_ne_zero.mp hn)
    have h3 : (0 : ℚ) < (1 + rate / 1200) ^ n - 1 := by linarith
    exact ne_of_gt h3
  · simp only [calculateEMI, round2, jsRound]
    norm_num

/-- Witness for C8: rate 12 and tenure 12 satisfy the hypotheses. -/
theorem calculateEMI_c8_witness :
    (0 : ℚ) < 12 ∧ 1 ≤ 12 ∧
    (calculateEMI 100000 12 12 = emiSpec 100000 12 12 ∧
      (1 + (12 : ℚ) / 1200) ^ 12 - 1 ≠ 0 ∧
      calculateEMI 100000 12 12 = 8884.88) :=
  ⟨by norm_num, by norm_num,
    calculateEMI_c8 100000 12 12 (by norm_num) (by norm_num)⟩

/-! ### Claim C9: the maturity date -/

/-- C9 (counterexample): a loan created 2024-01-10 with tenure 12 and
disbursed 2024-02-05 keeps `maturityDate = 2025-01-10` (creation + 12
months), which differs from disbursement + 12 months = 2025-02-05, so the
persisted maturity date is not derived from the disbursement date. -/
theorem maturityDate_c9_counterexample :
    (disburseLoan (utc 2024 2 5) c9CreatedLoan).disbursementDate
      = some (utc 2024 2 5) ∧
    (disburseLoan (utc 2024 2 5) c9CreatedLoan).maturityDate
      = some (utc 2025 1 10) ∧
    addCalendarMonths (utc 2024 2 5) 12 = utc 2025 2 5 ∧
    (disburseLoan (utc 2024 2 5) c9CreatedLoan).maturityDate
      ≠ some (addCalendarMonths (utc 2024 2 5) 12) := by
  refine ⟨by decide, by decide, by decide, by decide⟩

/-- C9 (amended): the persisted `maturityDate` is computed at loan creation
as the creation instant plus tenure calendar months, and disbursing stamps
the disbursement date and activates the loan without recomputing the
maturity date. -/
theorem maturityDate_c9_amended (now now2 : Int) (P r : ℚ) (tn : ℕ)
    (pr : ℚ) (pt : PenaltyType) (loan : Loan) :
    (createLoan now P r tn pr pt).maturityDate
      = some (addCalendarMonths now tn) ∧
    (createLoan now P r tn pr pt).status = LoanStatus.PENDING ∧
    (createLoan now P r tn pr pt).disbursementDate = none ∧
    (disburseLoan now2 loan).maturityDate = loan.maturityDate ∧
    (disburseLoan now2 loan).disbursementDate = some now2 ∧
    (disburseLoan now2 loan).status = LoanStatus.ACTIVE :=
  ⟨rfl, rfl, rfl, rfl, rfl, rfl⟩

end AGV
